import Mathlib

/-!
Verification of `invoice_customer_code_fix_migration_20250904.py`: a one-shot
MySQL migration script with a connector (`get_mysql_connection`), a structure
checker (`check_invoice_documents_table_structure`), a consistency validator
(`validate_customer_code_data_consistency`), an audit logger
(`update_migration_log`) and an orchestrator (`main`).

The embedding models the database as an explicit state (catalog rows for the
`invoice_documents` columns, the `invoice_documents` and `invoice_lines`
tables, and the `migration_log` table as an `Option` — `none` meaning the
table does not exist yet).  Each Python function is denoted in
`Except String` so that exceptions raised by the MySQL driver are visible:
fallible primitives (`connectAttempt`, `execQuery`, Python's `int()`) may
throw, and each component's `try/except/finally` is an explicit `match` on
the fallible body.  Each component returns a run record carrying the boolean
result, whether a session was opened/closed, the log lines that matter to the
spec, and the database state after the run.
-/

namespace InvoiceMigration

/-- One row of the `INFORMATION_SCHEMA.COLUMNS` catalog restricted to the
current schema (`TABLE_SCHEMA = DATABASE()`), as consumed by the structure
check query. -/
structure CatalogColumn where
  table_name : String
  column_name : String
  data_type : String
  is_nullable : String
  character_maximum_length : Option Nat
deriving DecidableEq

/-- One row of the `invoice_documents` table (the fields the script reads).
`customer_code = none` models SQL NULL; `some ""` models the empty string. -/
structure InvoiceDocument where
  id : Nat
  invoice_number : String
  customer_code : Option String
  customer_name : Option String
  status : String
  created_at : Nat
deriving DecidableEq

/-- One row of the `invoice_lines` table (only its foreign key matters). -/
structure InvoiceLine where
  id : Nat
  invoice_id : Nat
deriving DecidableEq

/-- One row of the `migration_log` table created by the audit logger. -/
structure MigrationLogRow where
  id : Nat
  migration_name : String
  description : String
  applied_at : Nat
  status : String
  notes : String
deriving DecidableEq

/-- The database state.  `migration_log = none` means the table does not
exist yet (`CREATE TABLE IF NOT EXISTS` creates it empty). -/
structure DBState where
  catalog : List CatalogColumn
  invoice_documents : List InvoiceDocument
  invoice_lines : List InvoiceLine
  migration_log : Option (List MigrationLogRow)
deriving DecidableEq

/-- The environment variables the connector reads (`none` = unset, so the
hard-coded default is used). -/
structure Env where
  MYSQL_HOST : Option String
  MYSQL_PORT : Option String
  MYSQL_USER : Option String
  MYSQL_PASSWORD : Option String
  MYSQL_DATABASE : Option String
deriving DecidableEq

/-- The non-deterministic outside world for one component call: the
environment, whether `mysql.connector.connect` raises, whether each of the
(at most two) statements executed by the component raises, and the value of
`CURRENT_TIMESTAMP` used by the upsert. -/
structure Ctx where
  env : Env
  connectFault : Option String
  queryFault : Option String
  queryFault2 : Option String
  now : Nat
deriving DecidableEq

/-! ### Python `int()` on strings -/

/-- Whitespace stripped by Python's `str.strip()` (ASCII part). -/
def pyIsSpace (c : Char) : Bool :=
  c = ' ' || c = '\t' || c = '\n' || c = '\r' || c = '\x0b' || c = '\x0c'

/-- A run of decimal digits with optional single underscores between digits,
as accepted by Python's decimal integer grammar after the first digit. -/
def pyDigitTail : List Char → Bool
  | [] => true
  | '_' :: c :: rest => c.isDigit && pyDigitTail rest
  | ['_'] => false
  | c :: rest => c.isDigit && pyDigitTail rest

/-- The stripped, sign-normalised character list of a candidate int literal:
whitespace removed from both ends, then an optional leading sign removed. -/
def pyIntDigits (s : String) : List Char :=
  let cs := ((s.toList.dropWhile pyIsSpace).reverse.dropWhile pyIsSpace).reverse
  match cs with
  | '+' :: rest => rest
  | '-' :: rest => rest
  | cs => cs

/-- Whether Python's `int(s)` succeeds on `s` (base 10). -/
def pyIntParses (s : String) : Bool :=
  match pyIntDigits s with
  | [] => false
  | c :: rest => c.isDigit && pyDigitTail rest

/-- Sign of the literal: whether a `-` sign is present after stripping. -/
def pyIntNeg (s : String) : Bool :=
  match (s.toList.dropWhile pyIsSpace) with
  | '-' :: _ => true
  | _ => false

/-- The numeric value of the digit run (underscores skipped). -/
def pyDigitsVal (cs : List Char) : Nat :=
  cs.foldl (fun acc c => if c = '_' then acc else 10 * acc + (c.toNat - '0'.toNat)) 0

/-- Python `int(s)`: either the parsed value or a raised `ValueError`. -/
def pyInt (s : String) : Except String Int :=
  if pyIntParses s then
    .ok (if pyIntNeg s then -(pyDigitsVal (pyIntDigits s) : Int) else (pyDigitsVal (pyIntDigits s) : Int))
  else
    .error ("invalid literal for int() with base 10: " ++ s)

/-! ### Connector -/

/-- The body of the `try` block in `get_mysql_connection`: evaluate the
arguments of `mysql.connector.connect` — in particular
`int(os.environ.get('MYSQL_PORT', '3306'))`, which may raise — then attempt
the connection, which may raise a connector error. -/
def connectAttempt (ctx : Ctx) : Except String Unit := do
  let _port ← pyInt (ctx.env.MYSQL_PORT.getD "3306")
  match ctx.connectFault with
  | some e => throw e
  | none => pure ()

/-- `get_mysql_connection`: the whole body is guarded by
`try ... except Exception: return None`, so every raise is converted into an
absent (`none`) session.  `some ()` stands for a usable connection handle. -/
def get_mysql_connection (ctx : Ctx) : Except String (Option Unit) :=
  match connectAttempt ctx with
  | .ok _ => .ok (some ())
  | .error _ => .ok none

/-- A `cursor.execute`/`fetchall` round-trip: either raises the injected
fault or returns the rows the query denotes on the current database state. -/
def execQuery {α : Type} (fault : Option String) (rows : α) : Except String α :=
  match fault with
  | some e => throw e
  | none => .ok rows

/-! ### Structure Checker -/

/-- The rows matched by the catalog query's WHERE clause:
`TABLE_NAME = 'invoice_documents' AND COLUMN_NAME IN
('customer_code', 'customer_name')` (the schema restriction is built into
`DBState.catalog`). -/
def customerColumns (db : DBState) : List CatalogColumn :=
  db.catalog.filter fun c =>
    c.table_name == "invoice_documents" &&
      (c.column_name == "customer_code" || c.column_name == "customer_name")

/-- Lexicographic comparison of character lists by code point. -/
def lexLe : List Char → List Char → Bool
  | [], _ => true
  | _ :: _, [] => false
  | a :: as, b :: bs =>
    if a.toNat < b.toNat then true
    else if b.toNat < a.toNat then false
    else lexLe as bs

/-- String comparison used for `ORDER BY COLUMN_NAME` (code-point order;
the column names involved are plain ASCII). -/
def strLe (a b : String) : Bool :=
  lexLe a.toList b.toList

/-- The result set of the structure check query: the matching catalog rows,
`ORDER BY COLUMN_NAME`. -/
def structureQueryRows (db : DBState) : List CatalogColumn :=
  (customerColumns db).insertionSort fun a b => strLe a.column_name b.column_name = true

/-- Outcome of one run of the structure checker. -/
structure StructureRun where
  result : Bool
  opened : Bool
  closed : Bool
  db : DBState
deriving DecidableEq

/-- `check_invoice_documents_table_structure`.  The connection is obtained
outside the `try`, so a raise there would propagate (the `.error` branch);
inside the `try`, a query fault lands in the `except` branch (result
`false`), and the `finally` closes the session on both branches. -/
def check_invoice_documents_table_structure (ctx : Ctx) (db : DBState) :
    Except String StructureRun :=
  match get_mysql_connection ctx with
  | .error e => .error e
  | .ok none => .ok { result := false, opened := false, closed := false, db := db }
  | .ok (some _) =>
    match execQuery ctx.queryFault (structureQueryRows db) with
    | .ok columns =>
      if 2 ≤ columns.length then
        .ok { result := true, opened := true, closed := true, db := db }
      else
        .ok { result := false, opened := true, closed := true, db := db }
    | .error _ => .ok { result := false, opened := true, closed := true, db := db }

/-! ### Consistency Validator -/

/-- A document's customer code is blank when it is SQL NULL or the empty
string (`id.customer_code IS NULL OR id.customer_code = ''`). -/
def blankCode : Option String → Bool
  | none => true
  | some s => s == ""

/-- `COUNT(il.id)` for one document group of the LEFT JOIN: the number of
`invoice_lines` rows whose `invoice_id` matches. -/
def lineCount (db : DBState) (docId : Nat) : Nat :=
  (db.invoice_lines.filter fun l => l.invoice_id == docId).length

/-- One fetched row of the consistency query. -/
structure OffendingRow where
  id : Nat
  invoice_number : String
  customer_code : Option String
  customer_name : Option String
  status : String
  line_count : Nat
  created_at : Nat
deriving DecidableEq

/-- The projected row for one offending document. -/
def offendingRowOf (db : DBState) (d : InvoiceDocument) : OffendingRow :=
  { id := d.id, invoice_number := d.invoice_number,
    customer_code := d.customer_code, customer_name := d.customer_name,
    status := d.status, line_count := lineCount db d.id,
    created_at := d.created_at }

/-- All offending rows before ORDER BY / LIMIT: documents with a blank
customer code (WHERE) whose line count is positive (HAVING), one group per
document id. -/
def offendingRows (db : DBState) : List OffendingRow :=
  ((db.invoice_documents.filter fun d => blankCode d.customer_code).map
      (offendingRowOf db)).filter fun r => 0 < r.line_count

/-- `ORDER BY id.created_at DESC` as a relation on fetched rows. -/
def createdDesc (a b : OffendingRow) : Prop :=
  b.created_at ≤ a.created_at

instance : DecidableRel createdDesc := fun a b => Nat.decLe b.created_at a.created_at

instance : IsTotal OffendingRow createdDesc :=
  ⟨fun a b => Nat.le_total b.created_at a.created_at⟩

instance : IsTrans OffendingRow createdDesc :=
  ⟨fun _ _ _ h1 h2 => Nat.le_trans h2 h1⟩

/-- The result set of the consistency query: offending rows
`ORDER BY id.created_at DESC LIMIT 10`. -/
def consistencyQueryRows (db : DBState) : List OffendingRow :=
  ((offendingRows db).insertionSort createdDesc).take 10

/-- Outcome of one run of the consistency validator.  `headerCount` is the
count printed in the warning header (when a warning was printed), and
`loggedRows` are the rows reported one warning line each, in order. -/
structure ValidateRun where
  result : Bool
  opened : Bool
  closed : Bool
  headerCount : Option Nat
  loggedRows : List OffendingRow
  db : DBState
deriving DecidableEq

/-- `validate_customer_code_data_consistency`.  `if problematic_invoices:`
is Python list truthiness, i.e. nonemptiness of the fetched rows. -/
def validate_customer_code_data_consistency (ctx : Ctx) (db : DBState) :
    Except String ValidateRun :=
  match get_mysql_connection ctx with
  | .error e => .error e
  | .ok none =>
    .ok { result := false, opened := false, closed := false,
          headerCount := none, loggedRows := [], db := db }
  | .ok (some _) =>
    match execQuery ctx.queryFault (consistencyQueryRows db) with
    | .ok problematic =>
      if problematic.isEmpty then
        .ok { result := true, opened := true, closed := true,
              headerCount := none, loggedRows := [], db := db }
      else
        .ok { result := false, opened := true, closed := true,
              headerCount := some problematic.length, loggedRows := problematic,
              db := db }
    | .error _ =>
      .ok { result := false, opened := true, closed := true,
            headerCount := none, loggedRows := [], db := db }

/-! ### Audit Logger -/

def migrationName : String := "invoice_customer_code_fix_20250904"

def migrationDescription : String :=
  "Fixed customer code saving issue in invoice creation workflow"

def migrationNotes : String :=
  "Updated invoice creation routes to properly save user-selected customer code and name when creating draft invoices and adding serial items. Customer code is now frozen after first line item is added."

/-- `CREATE TABLE IF NOT EXISTS migration_log (...)`: creates the table
empty when absent, leaves it untouched when present. -/
def createLogTable (db : DBState) : DBState :=
  { db with migration_log := some (db.migration_log.getD []) }

/-- The AUTO_INCREMENT id assigned to a fresh row. -/
def nextLogId (tbl : List MigrationLogRow) : Nat :=
  (tbl.map fun r => r.id).foldr Nat.max 0 + 1

/-- `INSERT ... ON DUPLICATE KEY UPDATE applied_at = CURRENT_TIMESTAMP,
status = 'applied', notes = VALUES(notes)`: when a row with the unique name
exists it is updated in place (description untouched); otherwise a fresh row
is inserted with `applied_at` defaulting to now and `status` defaulting to
`'applied'`. -/
def upsertLog (tbl : List MigrationLogRow) (name desc notes : String) (now : Nat) :
    List MigrationLogRow :=
  if tbl.any (fun r => r.migration_name == name) then
    tbl.map fun r =>
      if r.migration_name == name then
        { r with applied_at := now, status := "applied", notes := notes }
      else r
  else
    tbl ++ [{ id := nextLogId tbl, migration_name := name, description := desc,
              applied_at := now, status := "applied", notes := notes }]

/-- Outcome of one run of the audit logger. -/
structure LogRun where
  result : Bool
  opened : Bool
  closed : Bool
  db : DBState
deriving DecidableEq

/-- `update_migration_log`.  The two statements auto-commit independently:
if the CREATE succeeds and the INSERT faults, the created (empty) table
persists while the upsert does not happen. -/
def update_migration_log (ctx : Ctx) (db : DBState) : Except String LogRun :=
  match get_mysql_connection ctx with
  | .error e => .error e
  | .ok none => .ok { result := false, opened := false, closed := false, db := db }
  | .ok (some _) =>
    match execQuery ctx.queryFault () with
    | .error _ => .ok { result := false, opened := true, closed := true, db := db }
    | .ok _ =>
      let db1 := createLogTable db
      match execQuery ctx.queryFault2 () with
      | .error _ => .ok { result := false, opened := true, closed := true, db := db1 }
      | .ok _ =>
        let tbl := db1.migration_log.getD []
        let tbl2 := upsertLog tbl migrationName migrationDescription migrationNotes ctx.now
        let db2 := { db1 with migration_log := some tbl2 }
        .ok { result := true, opened := true, closed := true, db := db2 }

/-! ### Orchestrator -/

/-- Outcome of one run of `main`: the returned success flag, which of the
later components were invoked, and the final database state. -/
structure MainRun where
  success : Bool
  validatorInvoked : Bool
  loggerInvoked : Bool
  db : DBState
deriving DecidableEq

/-- The outside world for a whole run of `main`: one call context per
component (each opens and closes its own session independently). -/
structure MainCtx where
  ctx1 : Ctx
  ctx2 : Ctx
  ctx3 : Ctx
deriving DecidableEq

/-- `main`: run the structure check; on failure return `False` at once.
Otherwise run the validator (its result only changes summary wording), then
the audit logger; on logger failure return `False`, else return `True`. -/
def main (m : MainCtx) (db : DBState) : Except String MainRun := do
  let r1 ← check_invoice_documents_table_structure m.ctx1 db
  if r1.result = false then
    pure { success := false, validatorInvoked := false, loggerInvoked := false,
           db := r1.db }
  else do
    let r2 ← validate_customer_code_data_consistency m.ctx2 r1.db
    let r3 ← update_migration_log m.ctx3 r2.db
    if r3.result = false then
      pure { success := false, validatorInvoked := true, loggerInvoked := true,
             db := r3.db }
    else
      pure { success := true, validatorInvoked := true, loggerInvoked := true,
             db := r3.db }

/-- `if __name__ == "__main__": success = main(); exit(0 if success else 1)`. -/
def processExit (m : MainCtx) (db : DBState) : Except String Nat := do
  let r ← main m db
  pure (if r.success then 0 else 1)

/-! ### Derived closed forms of the component denotations

These are proved equal to the `Except`-level denotations below; they make
the branch structure of each run explicit. -/

/-- Closed form of a structure checker run. -/
def checkRunOf (ctx : Ctx) (db : DBState) : StructureRun :=
  match connectAttempt ctx with
  | .error _ => { result := false, opened := false, closed := false, db := db }
  | .ok _ =>
    match ctx.queryFault with
    | some _ => { result := false, opened := true, closed := true, db := db }
    | none =>
      { result := decide (2 ≤ (structureQueryRows db).length),
        opened := true, closed := true, db := db }

/-- Closed form of a consistency validator run. -/
def validateRunOf (ctx : Ctx) (db : DBState) : ValidateRun :=
  match connectAttempt ctx with
  | .error _ =>
    { result := false, opened := false, closed := false,
      headerCount := none, loggedRows := [], db := db }
  | .ok _ =>
    match ctx.queryFault with
    | some _ =>
      { result := false, opened := true, closed := true,
        headerCount := none, loggedRows := [], db := db }
    | none =>
      if (consistencyQueryRows db).isEmpty then
        { result := true, opened := true, closed := true,
          headerCount := none, loggedRows := [], db := db }
      else
        { result := false, opened := true, closed := true,
          headerCount := some (consistencyQueryRows db).length,
          loggedRows := consistencyQueryRows db, db := db }

/-- Closed form of an audit logger run. -/
def updateRunOf (ctx : Ctx) (db : DBState) : LogRun :=
  match connectAttempt ctx with
  | .error _ => { result := false, opened := false, closed := false, db := db }
  | .ok _ =>
    match ctx.queryFault with
    | some _ => { result := false, opened := true, closed := true, db := db }
    | none =>
      match ctx.queryFault2 with
      | some _ => { result := false, opened := true, closed := true, db := createLogTable db }
      | none =>
        let tbl2 := upsertLog (db.migration_log.getD []) migrationName
          migrationDescription migrationNotes ctx.now
        { result := true, opened := true, closed := true,
          db := { db with migration_log := some tbl2 } }

/-- Closed form of a `main` run. -/
def mainRunOf (m : MainCtx) (db : DBState) : MainRun :=
  let r1 := checkRunOf m.ctx1 db
  if r1.result = false then
    { success := false, validatorInvoked := false, loggerInvoked := false, db := r1.db }
  else
    let r2 := validateRunOf m.ctx2 r1.db
    let r3 := updateRunOf m.ctx3 r2.db
    if r3.result = false then
      { success := false, validatorInvoked := true, loggerInvoked := true, db := r3.db }
    else
      { success := true, validatorInvoked := true, loggerInvoked := true, db := r3.db }

/-! ### Concrete inputs used to witness the theorems -/

/-- An environment with every `MYSQL_*` variable unset (all defaults). -/
def envW : Env :=
  { MYSQL_HOST := none, MYSQL_PORT := none, MYSQL_USER := none,
    MYSQL_PASSWORD := none, MYSQL_DATABASE := none }

/-- A fault-free call context. -/
def ctxW : Ctx :=
  { env := envW, connectFault := none, queryFault := none, queryFault2 := none, now := 5 }

/-- A second fault-free call context with a later timestamp. -/
def ctxW2 : Ctx :=
  { env := envW, connectFault := none, queryFault := none, queryFault2 := none, now := 9 }

/-- A call context whose `MYSQL_PORT` variable is not an integer literal. -/
def ctxBadPort : Ctx :=
  { ctxW with env := { envW with MYSQL_PORT := some "not-a-port" } }

/-- The empty database (no catalog rows, no tables' rows, no log table). -/
def dbEmpty : DBState :=
  { catalog := [], invoice_documents := [], invoice_lines := [], migration_log := none }

/-- A catalog holding exactly the two required customer columns. -/
def goodCatalog : List CatalogColumn :=
  [{ table_name := "invoice_documents", column_name := "customer_code",
     data_type := "varchar", is_nullable := "YES", character_maximum_length := some 50 },
   { table_name := "invoice_documents", column_name := "customer_name",
     data_type := "varchar", is_nullable := "YES", character_maximum_length := some 255 }]

/-- A database whose catalog has two matching rows that are both named
`customer_code` (so `customer_name` is absent). -/
def dbDup : DBState :=
  { dbEmpty with catalog :=
    [{ table_name := "invoice_documents", column_name := "customer_code",
       data_type := "varchar", is_nullable := "YES", character_maximum_length := some 50 },
     { table_name := "invoice_documents", column_name := "customer_code",
       data_type := "text", is_nullable := "NO", character_maximum_length := none }] }

/-- An invoice document with a NULL customer code. -/
def mkDoc (i : Nat) : InvoiceDocument :=
  { id := i, invoice_number := "INV", customer_code := none, customer_name := none,
    status := "draft", created_at := i }

/-- One invoice line attached to document `i`. -/
def mkLine (i : Nat) : InvoiceLine :=
  { id := i, invoice_id := i }

/-- A database with `n` offending invoices (NULL customer code, one line
each) and a well-formed catalog. -/
def dbOffending (n : Nat) : DBState :=
  { catalog := goodCatalog, invoice_documents := (List.range n).map mkDoc,
    invoice_lines := (List.range n).map mkLine, migration_log := none }

/-- `main`'s world built from one call context used for all three calls. -/
def mainCtxOf (ctx : Ctx) : MainCtx :=
  { ctx1 := ctx, ctx2 := ctx, ctx3 := ctx }

/-! ### Equivalence of the denotations with their closed forms -/

theorem check_eq (ctx : Ctx) (db : DBState) :
    check_invoice_documents_table_structure ctx db = .ok (checkRunOf ctx db) := by
  unfold check_invoice_documents_table_structure checkRunOf get_mysql_connection execQuery
  cases hc : connectAttempt ctx with
  | error e => rfl
  | ok u =>
    cases hq : ctx.queryFault with
    | some e => rfl
    | none =>
      simp only []
      split
      · next h => simp [decide_eq_true h]
      · next h => simp [decide_eq_false h]

theorem validate_eq (ctx : Ctx) (db : DBState) :
    validate_customer_code_data_consistency ctx db = .ok (validateRunOf ctx db) := by
  unfold validate_customer_code_data_consistency validateRunOf get_mysql_connection execQuery
  cases hc : connectAttempt ctx with
  | error e => rfl
  | ok u =>
    cases hq : ctx.queryFault with
    | some e => rfl
    | none =>
      simp only []
      split <;> rfl

theorem update_eq (ctx : Ctx) (db : DBState) :
    update_migration_log ctx db = .ok (updateRunOf ctx db) := by
  unfold update_migration_log updateRunOf get_mysql_connection execQuery createLogTable
  cases hc : connectAttempt ctx with
  | error e => rfl
  | ok u =>
    cases hq : ctx.queryFault with
    | some e => rfl
    | none =>
      cases hq2 : ctx.queryFault2 with
      | some e => rfl
      | none => rfl

theorem main_eq (m : MainCtx) (db : DBState) :
    main m db = .ok (mainRunOf m db) := by
  unfold main mainRunOf
  simp only [check_eq, validate_eq, update_eq, bind, Except.bind, pure, Except.pure]
  split <;> first
  | rfl
  | (split <;> rfl)

/-! ### Helper lemmas about the closed forms -/

theorem connectAttempt_of_isOk {ctx : Ctx} (h : (connectAttempt ctx).isOk = true) :
    ∃ u, connectAttempt ctx = .ok u := by
  cases hca : connectAttempt ctx with
  | ok u => exact ⟨u, rfl⟩
  | error e => rw [hca] at h; exact absurd h (by simp [Except.isOk, Except.toBool])

theorem checkRunOf_ok {ctx : Ctx} {u : Unit} (db : DBState)
    (hca : connectAttempt ctx = .ok u) (hq : ctx.queryFault = none) :
    checkRunOf ctx db =
      { result := decide (2 ≤ (structureQueryRows db).length),
        opened := true, closed := true, db := db } := by
  unfold checkRunOf
  rw [hca, hq]

theorem validateRunOf_ok {ctx : Ctx} {u : Unit} (db : DBState)
    (hca : connectAttempt ctx = .ok u) (hq : ctx.queryFault = none) :
    validateRunOf ctx db =
      if (consistencyQueryRows db).isEmpty then
        { result := true, opened := true, closed := true,
          headerCount := none, loggedRows := [], db := db }
      else
        { result := false, opened := true, closed := true,
          headerCount := some (consistencyQueryRows db).length,
          loggedRows := consistencyQueryRows db, db := db } := by
  unfold validateRunOf
  rw [hca, hq]

theorem updateRunOf_ok {ctx : Ctx} {u : Unit} (db : DBState)
    (hca : connectAttempt ctx = .ok u) (hq : ctx.queryFault = none)
    (hq2 : ctx.queryFault2 = none) :
    updateRunOf ctx db =
      { result := true, opened := true, closed := true,
        db := { db with migration_log := some (upsertLog (db.migration_log.getD [])
          migrationName migrationDescription migrationNotes ctx.now) } } := by
  unfold updateRunOf
  rw [hca, hq, hq2]

theorem checkRunOf_db (ctx : Ctx) (db : DBState) : (checkRunOf ctx db).db = db := by
  unfold checkRunOf
  cases connectAttempt ctx with
  | error e => rfl
  | ok u => cases ctx.queryFault <;> rfl

theorem validateRunOf_db (ctx : Ctx) (db : DBState) : (validateRunOf ctx db).db = db := by
  unfold validateRunOf
  cases connectAttempt ctx with
  | error e => rfl
  | ok u =>
    cases ctx.queryFault with
    | some e => rfl
    | none =>
      simp only []
      split <;> rfl

theorem updateRunOf_frame (ctx : Ctx) (db : DBState) :
    (updateRunOf ctx db).db.invoice_documents = db.invoice_documents ∧
    (updateRunOf ctx db).db.invoice_lines = db.invoice_lines ∧
    (updateRunOf ctx db).db.catalog = db.catalog := by
  unfold updateRunOf
  cases connectAttempt ctx with
  | error e => exact ⟨rfl, rfl, rfl⟩
  | ok u =>
    cases ctx.queryFault with
    | some e => exact ⟨rfl, rfl, rfl⟩
    | none => cases ctx.queryFault2 <;> exact ⟨rfl, rfl, rfl⟩

theorem checkRunOf_closed (ctx : Ctx) (db : DBState) :
    (checkRunOf ctx db).closed = (checkRunOf ctx db).opened := by
  unfold checkRunOf
  cases connectAttempt ctx with
  | error e => rfl
  | ok u => cases ctx.queryFault <;> rfl

theorem validateRunOf_closed (ctx : Ctx) (db : DBState) :
    (validateRunOf ctx db).closed = (validateRunOf ctx db).opened := by
  unfold validateRunOf
  cases connectAttempt ctx with
  | error e => rfl
  | ok u =>
    cases ctx.queryFault with
    | some e => rfl
    | none =>
      simp only []
      split <;> rfl

theorem updateRunOf_closed (ctx : Ctx) (db : DBState) :
    (updateRunOf ctx db).closed = (updateRunOf ctx db).opened := by
  unfold updateRunOf
  cases connectAttempt ctx with
  | error e => rfl
  | ok u =>
    cases ctx.queryFault with
    | some e => rfl
    | none => cases ctx.queryFault2 <;> rfl

theorem mainRunOf_success (m : MainCtx) (db : DBState) :
    (mainRunOf m db).success =
      ((checkRunOf m.ctx1 db).result && (updateRunOf m.ctx3 db).result) := by
  unfold mainRunOf
  simp only [checkRunOf_db, validateRunOf_db]
  cases h1 : (checkRunOf m.ctx1 db).result with
  | false => simp [h1]
  | true => cases h3 : (updateRunOf m.ctx3 db).result <;> simp [h1, h3]

/-! ### Claims -/

/-- C1: `main` returns overall success equal to (structure check passed) AND
(audit logger succeeded); the consistency-check outcome never affects the
returned flag or the exit code, so whenever the structure checker and the
audit logger both return true the process exits with code 0 even when the
consistency validator returned false (the success flag and the exit code do
not mention the validator's run at all). -/
theorem main_success_ignores_consistency (m : MainCtx) (db : DBState) :
    ∃ r1 r2 r3 r,
      check_invoice_documents_table_structure m.ctx1 db = .ok r1 ∧
      validate_customer_code_data_consistency m.ctx2 db = .ok r2 ∧
      update_migration_log m.ctx3 db = .ok r3 ∧
      main m db = .ok r ∧
      r.success = (r1.result && r3.result) ∧
      processExit m db = .ok (if r1.result && r3.result then 0 else 1) := by
  refine ⟨_, _, _, _, check_eq m.ctx1 db, validate_eq m.ctx2 db, update_eq m.ctx3 db,
    main_eq m db, mainRunOf_success m db, ?_⟩
  unfold processExit
  rw [main_eq]
  simp only [bind, Except.bind, pure, Except.pure, mainRunOf_success]

/-- C2: whenever the structure checker returns false, `main` aborts at once
with overall failure: the validator and the audit logger are never invoked,
the database (in particular `migration_log`) is untouched, and the process
exits with code 1. -/
theorem structure_failure_aborts (m : MainCtx) (db : DBState) (r1 : StructureRun)
    (h : check_invoice_documents_table_structure m.ctx1 db = .ok r1)
    (hf : r1.result = false) :
    main m db = .ok { success := false, validatorInvoked := false,
                      loggerInvoked := false, db := db } ∧
    processExit m db = .ok 1 := by
  rw [check_eq] at h
  injection h with h
  have hres : (checkRunOf m.ctx1 db).result = false := h ▸ hf
  have hmain : mainRunOf m db =
      { success := false, validatorInvoked := false, loggerInvoked := false, db := db } := by
    unfold mainRunOf
    simp [hres, checkRunOf_db]
  constructor
  · rw [main_eq, hmain]
  · unfold processExit
    rw [main_eq, hmain]
    rfl

/-- C2 witness: on the empty database the structure checker fails, `main`
returns false without invoking the other components, and the exit code is 1. -/
theorem structure_failure_aborts_witness :
    check_invoice_documents_table_structure (mainCtxOf ctxW).ctx1 dbEmpty =
      .ok { result := false, opened := true, closed := true, db := dbEmpty } ∧
    ({ result := false, opened := true, closed := true, db := dbEmpty } : StructureRun).result
      = false ∧
    (main (mainCtxOf ctxW) dbEmpty =
      .ok { success := false, validatorInvoked := false, loggerInvoked := false, db := dbEmpty } ∧
     processExit (mainCtxOf ctxW) dbEmpty = .ok 1) :=
  ⟨rfl, rfl, structure_failure_aborts (mainCtxOf ctxW) dbEmpty _ rfl rfl⟩

/-- C6: no exception propagates out of the connector or any component: all
four denotations are `.ok` on every input; a connection error surfaces as an
absent (`none`) session; and a query fault inside a component is converted
into a `false` result (with the session still closed when one was opened). -/
theorem no_exception_propagates (ctx : Ctx) (db : DBState) (e : String) :
    (get_mysql_connection ctx).isOk = true ∧
    (check_invoice_documents_table_structure ctx db).isOk = true ∧
    (validate_customer_code_data_consistency ctx db).isOk = true ∧
    (update_migration_log ctx db).isOk = true ∧
    get_mysql_connection ctx =
      .ok (if (connectAttempt ctx).isOk then some () else none) ∧
    check_invoice_documents_table_structure { ctx with queryFault := some e } db =
      .ok { result := false, opened := (connectAttempt ctx).isOk,
            closed := (connectAttempt ctx).isOk, db := db } ∧
    validate_customer_code_data_consistency { ctx with queryFault := some e } db =
      .ok { result := false, opened := (connectAttempt ctx).isOk,
            closed := (connectAttempt ctx).isOk, headerCount := none,
            loggedRows := [], db := db } ∧
    update_migration_log { ctx with queryFault := some e } db =
      .ok { result := false, opened := (connectAttempt ctx).isOk,
            closed := (connectAttempt ctx).isOk, db := db } := by
  have hset : connectAttempt { ctx with queryFault := some e } = connectAttempt ctx := rfl
  refine ⟨?_, ?_, ?_, ?_, ?_, ?_, ?_, ?_⟩
  · unfold get_mysql_connection
    cases connectAttempt ctx <;> rfl
  · rw [check_eq]; rfl
  · rw [validate_eq]; rfl
  · rw [update_eq]; rfl
  · unfold get_mysql_connection
    cases connectAttempt ctx <;> rfl
  · rw [check_eq]
    unfold checkRunOf
    rw [hset]
    cases connectAttempt ctx <;> rfl
  · rw [validate_eq]
    unfold validateRunOf
    rw [hset]
    cases connectAttempt ctx <;> rfl
  · rw [update_eq]
    unfold updateRunOf
    rw [hset]
    cases connectAttempt ctx <;> rfl

/-- C7: the tool never modifies `invoice_documents` or `invoice_lines`: the
structure checker and the validator leave the whole database untouched, the
audit logger changes at most `migration_log`, and a full `main` run
preserves the catalog and both invoice tables. -/
theorem invoice_tables_read_only (m : MainCtx) (ctx : Ctx) (db : DBState) :
    (∃ r, check_invoice_documents_table_structure ctx db = .ok r ∧ r.db = db) ∧
    (∃ r, validate_customer_code_data_consistency ctx db = .ok r ∧ r.db = db) ∧
    (∃ r, update_migration_log ctx db = .ok r ∧
       r.db.invoice_documents = db.invoice_documents ∧
       r.db.invoice_lines = db.invoice_lines ∧ r.db.catalog = db.catalog) ∧
    (∃ r, main m db = .ok r ∧
       r.db.invoice_documents = db.invoice_documents ∧
       r.db.invoice_lines = db.invoice_lines ∧ r.db.catalog = db.catalog) := by
  refine ⟨⟨_, check_eq ctx db, checkRunOf_db ctx db⟩,
          ⟨_, validate_eq ctx db, validateRunOf_db ctx db⟩,
          ⟨_, update_eq ctx db, updateRunOf_frame ctx db⟩,
          ⟨_, main_eq m db, ?_⟩⟩
  unfold mainRunOf
  simp only [checkRunOf_db, validateRunOf_db]
  split
  · exact ⟨rfl, rfl, rfl⟩
  · split <;> exact updateRunOf_frame m.ctx3 db

/-- C8: each component closes its session exactly on the runs in which one
was opened: on every input, the run record satisfies `closed = opened`, so
no exit path leaves an open session behind. -/
theorem sessions_always_closed (ctx : Ctx) (db : DBState) :
    (∃ r, check_invoice_documents_table_structure ctx db = .ok r ∧ r.closed = r.opened) ∧
    (∃ r, validate_customer_code_data_consistency ctx db = .ok r ∧ r.closed = r.opened) ∧
    (∃ r, update_migration_log ctx db = .ok r ∧ r.closed = r.opened) :=
  ⟨⟨_, check_eq ctx db, checkRunOf_closed ctx db⟩,
   ⟨_, validate_eq ctx db, validateRunOf_closed ctx db⟩,
   ⟨_, update_eq ctx db, updateRunOf_closed ctx db⟩⟩

/-- C9: whenever the `MYSQL_PORT` value does not parse as a Python integer,
the connector does not raise — the `int()` call sits inside the guarded
block, so the connector returns an absent (`none`) session — and every
component consequently returns false without opening a session. -/
theorem malformed_port_caught (ctx : Ctx) (db : DBState)
    (h : pyIntParses (ctx.env.MYSQL_PORT.getD "3306") = false) :
    get_mysql_connection ctx = .ok none ∧
    check_invoice_documents_table_structure ctx db =
      .ok { result := false, opened := false, closed := false, db := db } ∧
    validate_customer_code_data_consistency ctx db =
      .ok { result := false, opened := false, closed := false,
            headerCount := none, loggedRows := [], db := db } ∧
    update_migration_log ctx db =
      .ok { result := false, opened := false, closed := false, db := db } := by
  have hpy : pyInt (ctx.env.MYSQL_PORT.getD "3306") =
      .error ("invalid literal for int() with base 10: " ++
        ctx.env.MYSQL_PORT.getD "3306") := by
    unfold pyInt
    rw [h]
    rfl
  have hca : connectAttempt ctx =
      .error ("invalid literal for int() with base 10: " ++
        ctx.env.MYSQL_PORT.getD "3306") := by
    unfold connectAttempt
    rw [hpy]
    rfl
  refine ⟨?_, ?_, ?_, ?_⟩
  · unfold get_mysql_connection
    rw [hca]
  · rw [check_eq]
    unfold checkRunOf
    rw [hca]
  · rw [validate_eq]
    unfold validateRunOf
    rw [hca]
  · rw [update_eq]
    unfold updateRunOf
    rw [hca]

/-- C9 witness: with `MYSQL_PORT` set to `"not-a-port"`, the connector
returns an absent session and all three components return false. -/
theorem malformed_port_caught_witness :
    pyIntParses (ctxBadPort.env.MYSQL_PORT.getD "3306") = false ∧
    (get_mysql_connection ctxBadPort = .ok none ∧
     check_invoice_documents_table_structure ctxBadPort dbEmpty =
       .ok { result := false, opened := false, closed := false, db := dbEmpty } ∧
     validate_customer_code_data_consistency ctxBadPort dbEmpty =
       .ok { result := false, opened := false, closed := false,
             headerCount := none, loggedRows := [], db := dbEmpty } ∧
     update_migration_log ctxBadPort dbEmpty =
       .ok { result := false, opened := false, closed := false, db := dbEmpty }) :=
  ⟨by decide, malformed_port_caught ctxBadPort dbEmpty (by decide)⟩

/-- C10: the count printed in the validator's warning header is the length
of the fetched result set, capped at 10 by the query's LIMIT; on every
database with more than 10 offending invoices the header reports 10 and
understates the true total. -/
theorem warning_count_capped (ctx : Ctx) (db : DBState)
    (hc : (connectAttempt ctx).isOk = true) (hq : ctx.queryFault = none)
    (hN : 10 < (offendingRows db).length) :
    ∃ r, validate_customer_code_data_consistency ctx db = .ok r ∧
      r.headerCount = some 10 ∧ r.loggedRows.length = 10 ∧
      r.loggedRows.length < (offendingRows db).length := by
  obtain ⟨u, hca⟩ := connectAttempt_of_isOk hc
  have hlen : (consistencyQueryRows db).length = 10 := by
    unfold consistencyQueryRows
    rw [List.length_take, List.length_insertionSort]
    omega
  have hne : (consistencyQueryRows db).isEmpty = false := by
    rw [List.isEmpty_eq_false]
    intro hnil
    rw [hnil] at hlen
    simp at hlen
  have hrun : validateRunOf ctx db =
      { result := false, opened := true, closed := true,
        headerCount := some (consistencyQueryRows db).length,
        loggedRows := consistencyQueryRows db, db := db } := by
    rw [validateRunOf_ok db hca hq]
    simp [hne]
  refine ⟨_, validate_eq ctx db, ?_, ?_, ?_⟩
  · rw [hrun, hlen]
  · rw [hrun]
    exact hlen
  · rw [hrun, hlen]
    exact hN

/-- C10 witness: a database with 11 offending invoices, where the header
reports 10. -/
theorem warning_count_capped_witness :
    (connectAttempt ctxW).isOk = true ∧ ctxW.queryFault = none ∧
    10 < (offendingRows (dbOffending 11)).length ∧
    (∃ r, validate_customer_code_data_consistency ctxW (dbOffending 11) = .ok r ∧
      r.headerCount = some 10 ∧ r.loggedRows.length = 10 ∧
      r.loggedRows.length < (offendingRows (dbOffending 11)).length) :=
  ⟨by decide, rfl, by decide,
   warning_count_capped ctxW (dbOffending 11) (by decide) rfl (by decide)⟩

/-- C5: when connection and catalog query succeed, the structure checker
returns true iff at least two catalog rows match (`customer_code` or
`customer_name` on `invoice_documents`); it does not verify that both
required names are present — a catalog with two rows both named
`customer_code` also passes — and with fewer than two matching rows it
returns false (the iff direction). -/
theorem structure_checker_loose_check (ctx : Ctx) (db : DBState)
    (hc : (connectAttempt ctx).isOk = true) (hq : ctx.queryFault = none) :
    (∃ r, check_invoice_documents_table_structure ctx db = .ok r ∧
       (r.result = true ↔ 2 ≤ (customerColumns db).length)) ∧
    (∃ r, check_invoice_documents_table_structure ctx dbDup = .ok r ∧
       r.result = true ∧
       ∀ c ∈ customerColumns dbDup, c.column_name ≠ "customer_name") := by
  obtain ⟨u, hca⟩ := connectAttempt_of_isOk hc
  constructor
  · refine ⟨_, check_eq ctx db, ?_⟩
    rw [checkRunOf_ok db hca hq]
    simp [structureQueryRows, List.length_insertionSort]
  · refine ⟨_, check_eq ctx dbDup, ?_, ?_⟩
    · rw [checkRunOf_ok dbDup hca hq]
      decide
    · decide

/-- C5 witness: a fault-free context applied to the empty database and the
duplicate-column database. -/
theorem structure_checker_loose_check_witness :
    (connectAttempt ctxW).isOk = true ∧ ctxW.queryFault = none ∧
    ((∃ r, check_invoice_documents_table_structure ctxW dbEmpty = .ok r ∧
       (r.result = true ↔ 2 ≤ (customerColumns dbEmpty).length)) ∧
     (∃ r, check_invoice_documents_table_structure ctxW dbDup = .ok r ∧
       r.result = true ∧
       ∀ c ∈ customerColumns dbDup, c.column_name ≠ "customer_name")) :=
  ⟨by decide, rfl, structure_checker_loose_check ctxW dbEmpty (by decide) rfl⟩

/-- C4: when the offending-row query succeeds, the validator returns true
iff zero offending rows exist; and with `N` offending invoices
(`1 ≤ N ≤ 20`) it returns false and logs exactly `min N 10` of them,
ordered by creation timestamp descending. -/
theorem consistency_validator_spec (ctx : Ctx) (db : DBState) (N : Nat)
    (hc : (connectAttempt ctx).isOk = true) (hq : ctx.queryFault = none)
    (hN : (offendingRows db).length = N) :
    ∃ r, validate_customer_code_data_consistency ctx db = .ok r ∧
      (r.result = true ↔ N = 0) ∧
      (1 ≤ N → N ≤ 20 →
        r.result = false ∧ r.loggedRows.length = min N 10 ∧
        r.loggedRows.Pairwise (fun a b => b.created_at ≤ a.created_at) ∧
        ∀ row ∈ r.loggedRows, row ∈ offendingRows db) := by
  obtain ⟨u, hca⟩ := connectAttempt_of_isOk hc
  have hrun := validateRunOf_ok db hca hq
  have hlen : (consistencyQueryRows db).length = min 10 N := by
    unfold consistencyQueryRows
    rw [List.length_take, List.length_insertionSort, hN]
  have hsorted : (consistencyQueryRows db).Pairwise createdDesc :=
    List.Pairwise.sublist (List.take_sublist 10 _)
      (List.sorted_insertionSort createdDesc (offendingRows db))
  have hmem : ∀ row ∈ consistencyQueryRows db, row ∈ offendingRows db := by
    intro row hr
    exact (List.perm_insertionSort createdDesc (offendingRows db)).mem_iff.mp
      (List.mem_of_mem_take hr)
  cases hemp : (consistencyQueryRows db).isEmpty with
  | true =>
    have hN0 : N = 0 := by
      have h0 : (consistencyQueryRows db).length = 0 := by
        rw [List.isEmpty_iff] at hemp
        rw [hemp]
        rfl
      rw [hlen] at h0
      omega
    have hr2 : validateRunOf ctx db =
        { result := true, opened := true, closed := true,
          headerCount := none, loggedRows := [], db := db } := by
      rw [hrun]
      simp [hemp]
    refine ⟨_, validate_eq ctx db, ?_, ?_⟩
    · rw [hr2]
      simp [hN0]
    · intro hge1 _
      omega
  | false =>
    have hNpos : N ≠ 0 := by
      intro h0
      rw [List.isEmpty_eq_false] at hemp
      apply hemp
      apply List.length_eq_zero.mp
      rw [hlen, h0]
      simp
    have hr2 : validateRunOf ctx db =
        { result := false, opened := true, closed := true,
          headerCount := some (consistencyQueryRows db).length,
          loggedRows := consistencyQueryRows db, db := db } := by
      rw [hrun]
      simp [hemp]
    refine ⟨_, validate_eq ctx db, ?_, ?_⟩
    · rw [hr2]
      simp [hNpos]
    · intro _ _
      rw [hr2]
      refine ⟨rfl, ?_, hsorted, hmem⟩
      rw [hlen, Nat.min_comm]

/-- C4 witness: three offending invoices, all logged, newest first. -/
theorem consistency_validator_spec_witness :
    (connectAttempt ctxW).isOk = true ∧ ctxW.queryFault = none ∧
    (offendingRows (dbOffending 3)).length = 3 ∧
    (∃ r, validate_customer_code_data_consistency ctxW (dbOffending 3) = .ok r ∧
      (r.result = true ↔ 3 = 0) ∧
      (1 ≤ 3 → 3 ≤ 20 →
        r.result = false ∧ r.loggedRows.length = min 3 10 ∧
        r.loggedRows.Pairwise (fun a b => b.created_at ≤ a.created_at) ∧
        ∀ row ∈ r.loggedRows, row ∈ offendingRows (dbOffending 3))) :=
  ⟨by decide, rfl, by decide,
   consistency_validator_spec ctxW (dbOffending 3) 3 (by decide) rfl (by decide)⟩

theorem upsertLog_conflict (tbl : List MigrationLogRow) (name desc notes : String)
    (now : Nat) (h : tbl.any (fun r => r.migration_name == name) = true) :
    upsertLog tbl name desc notes now =
      tbl.map fun r =>
        if r.migration_name == name then
          { r with applied_at := now, status := "applied", notes := notes }
        else r := by
  unfold upsertLog
  rw [if_pos h]

theorem upsertLog_count (tbl : List MigrationLogRow) (name desc notes : String)
    (now : Nat) (h : tbl.countP (fun r => r.migration_name == name) ≤ 1) :
    (upsertLog tbl name desc notes now).countP (fun r => r.migration_name == name) = 1 := by
  unfold upsertLog
  split
  · next hany =>
    rw [List.countP_map]
    have hc : List.countP ((fun r => r.migration_name == name) ∘ fun r =>
        if r.migration_name == name then
          { r with applied_at := now, status := "applied", notes := notes }
        else r) tbl = List.countP (fun r => r.migration_name == name) tbl := by
      apply List.countP_congr
      intro x _
      by_cases hx : x.migration_name == name
      · simp [Function.comp, hx]
      · simp [Function.comp, hx]
    rw [hc]
    have hpos : 0 < tbl.countP (fun r => r.migration_name == name) :=
      List.countP_pos_iff.mpr (List.any_eq_true.mp hany)
    omega
  · next hany =>
    rw [List.countP_append]
    have h0 : tbl.countP (fun r => r.migration_name == name) = 0 := by
      rw [List.countP_eq_zero]
      intro a ha hb
      exact hany (List.any_eq_true.mpr ⟨a, ha, hb⟩)
    rw [h0, List.countP_singleton]
    simp

/-- C3: the audit logger's write is an idempotent upsert keyed on the unique
migration name: starting from any database whose log table respects the
uniqueness constraint, two successful runs leave exactly one `migration_log`
row for the name, with `applied_at` equal to the second run's timestamp,
status forced to `applied`, notes equal to the (second run's) notes value,
and the description kept from the state after the first run (not overwritten
by the conflicting second insert). -/
theorem audit_logger_idempotent (ctx1 ctx2 : Ctx) (db : DBState)
    (h1 : (connectAttempt ctx1).isOk = true) (h1q : ctx1.queryFault = none)
    (h1q2 : ctx1.queryFault2 = none)
    (h2 : (connectAttempt ctx2).isOk = true) (h2q : ctx2.queryFault = none)
    (h2q2 : ctx2.queryFault2 = none)
    (hU : (db.migration_log.getD []).countP
        (fun r => r.migration_name == migrationName) ≤ 1) :
    ∃ r1 r2 tbl1 tbl2,
      update_migration_log ctx1 db = .ok r1 ∧ r1.result = true ∧
      update_migration_log ctx2 r1.db = .ok r2 ∧ r2.result = true ∧
      r1.db.migration_log = some tbl1 ∧ r2.db.migration_log = some tbl2 ∧
      tbl1.countP (fun r => r.migration_name == migrationName) = 1 ∧
      tbl2.countP (fun r => r.migration_name == migrationName) = 1 ∧
      ∀ row ∈ tbl2, row.migration_name = migrationName →
        row.applied_at = ctx2.now ∧ row.status = "applied" ∧
        row.notes = migrationNotes ∧
        ∃ row1 ∈ tbl1, row1.migration_name = migrationName ∧
          row.description = row1.description := by
  obtain ⟨u1, hca1⟩ := connectAttempt_of_isOk h1
  obtain ⟨u2, hca2⟩ := connectAttempt_of_isOk h2
  have hrun1 := updateRunOf_ok db hca1 h1q h1q2
  have hc1 : (upsertLog (db.migration_log.getD []) migrationName migrationDescription
      migrationNotes ctx1.now).countP (fun r => r.migration_name == migrationName) = 1 :=
    upsertLog_count _ _ _ _ _ hU
  have hdb1 : (updateRunOf ctx1 db).db =
      { db with migration_log := some (upsertLog (db.migration_log.getD [])
          migrationName migrationDescription migrationNotes ctx1.now) } := by
    rw [hrun1]
  have hrun2 := updateRunOf_ok (updateRunOf ctx1 db).db hca2 h2q h2q2
  rw [hdb1] at hrun2
  have hc2 : (upsertLog (upsertLog (db.migration_log.getD []) migrationName
        migrationDescription migrationNotes ctx1.now) migrationName
        migrationDescription migrationNotes ctx2.now).countP
      (fun r => r.migration_name == migrationName) = 1 :=
    upsertLog_count _ _ _ _ _ (le_of_eq hc1)
  have hany1 : (upsertLog (db.migration_log.getD []) migrationName migrationDescription
      migrationNotes ctx1.now).any (fun r => r.migration_name == migrationName) = true := by
    apply List.any_eq_true.mpr
    apply List.countP_pos_iff.mp
    omega
  refine ⟨updateRunOf ctx1 db, updateRunOf ctx2 (updateRunOf ctx1 db).db, _, _,
    update_eq ctx1 db, by rw [hrun1], update_eq ctx2 (updateRunOf ctx1 db).db,
    by rw [hdb1, hrun2], by rw [hdb1], by rw [hdb1, hrun2]; rfl, hc1, hc2, ?_⟩
  intro row hrow hname
  rw [upsertLog_conflict _ _ _ _ _ hany1] at hrow
  obtain ⟨r0, hr0, hfr⟩ := List.mem_map.mp hrow
  by_cases hx : r0.migration_name == migrationName
  · rw [if_pos hx] at hfr
    subst hfr
    exact ⟨rfl, rfl, rfl, r0, hr0, beq_iff_eq.mp hx, rfl⟩
  · rw [if_neg hx] at hfr
    subst hfr
    exact absurd (beq_iff_eq.mpr hname) hx

/-- C3 witness: two fault-free runs on the empty database. -/
theorem audit_logger_idempotent_witness :
    (connectAttempt ctxW).isOk = true ∧ ctxW.queryFault = none ∧
    ctxW.queryFault2 = none ∧
    (connectAttempt ctxW2).isOk = true ∧ ctxW2.queryFault = none ∧
    ctxW2.queryFault2 = none ∧
    (dbEmpty.migration_log.getD []).countP
      (fun r => r.migration_name == migrationName) ≤ 1 ∧
    (∃ r1 r2 tbl1 tbl2,
      update_migration_log ctxW dbEmpty = .ok r1 ∧ r1.result = true ∧
      update_migration_log ctxW2 r1.db = .ok r2 ∧ r2.result = true ∧
      r1.db.migration_log = some tbl1 ∧ r2.db.migration_log = some tbl2 ∧
      tbl1.countP (fun r => r.migration_name == migrationName) = 1 ∧
      tbl2.countP (fun r => r.migration_name == migrationName) = 1 ∧
      ∀ row ∈ tbl2, row.migration_name = migrationName →
        row.applied_at = ctxW2.now ∧ row.status = "applied" ∧
        row.notes = migrationNotes ∧
        ∃ row1 ∈ tbl1, row1.migration_name = migrationName ∧
          row.description = row1.description) :=
  ⟨by decide, rfl, rfl, by decide, rfl, rfl, by decide,
   audit_logger_idempotent ctxW ctxW2 dbEmpty (by decide) rfl rfl (by decide) rfl rfl
     (by decide)⟩

end InvoiceMigration
